import Mathlib

/-!
Verification development for the Hermine-Mediatool synchronization pipeline.

The definitions below are a shallow embedding of the Python sources:
  * src/storage/database.py   (ManifestDB: the SQLite manifest store)
  * src/downloader/engine.py  (DownloadEngine: per-file pipeline, retries,
                               validation, remediation jobs)
  * src/crypto/decryption.py  (HermineCrypto: AES-CBC decryption, unpad)
  * src/api/hermine_client.py (download_file: the file-key unwrap chain)

External effects (network fetches, the PIL image verifier, the raw AES-CBC
block transform, the filesystem, the SHA-256 digest) are passed in as
explicit oracle parameters; the control flow around them is translated
directly from the source.
-/

namespace HermineMediatool

/-- Lifecycle status values stored in the `status` column of the
`downloaded_files` table (database.py).  `new` is not a stored value:
absence of a record is the implicit new state. -/
inductive Status where
  | completed
  | upload_pending
  | upload_failed
  | corrupted
  deriving DecidableEq, Repr

/-- One row of the `downloaded_files` table (database.py, `initialize`). -/
structure FileRecord where
  file_id : String
  channel_id : String
  message_id : String
  filename : String
  file_hash : Option String
  file_size : Nat
  mime_type : String
  sender : String
  local_path : Option String
  nextcloud_path : Option String
  status : Status
  deriving DecidableEq, Repr

/-- The `downloaded_files` table: a list of rows.  The real table has a
UNIQUE constraint on `file_id`; theorems that need it take nodup of the
ids as a hypothesis. -/
abbrev ManifestDB := List FileRecord

/-- A sqlite3.Error raised by the underlying store. -/
structure SqliteError where
  msg : String
  deriving DecidableEq, Repr

/-- The SELECT inside `ManifestDB.file_exists` (database.py:116-119):
first row with the given file_id and status completed, if any. -/
def query_completed (db : ManifestDB) (file_id : String) : Option FileRecord :=
  db.find? (fun r => decide (r.file_id = file_id ∧ r.status = Status.completed))

/-- The body of `ManifestDB.file_exists` (database.py:112-123): the query
either returns its row set or raises; the method returns whether a row was
found and catches sqlite3.Error by returning False. -/
def file_exists_catch (q : Except SqliteError (Option FileRecord)) : Bool :=
  match q with
  | .ok row => row.isSome
  | .error _ => false

/-- `ManifestDB.file_exists` on a healthy store: the query succeeds. -/
def file_exists (db : ManifestDB) (file_id : String) : Bool :=
  file_exists_catch (.ok (query_completed db file_id))

/-- `ManifestDB.upsert_file` (database.py:145-163): INSERT OR REPLACE keyed
by the unique `file_id`. -/
def upsert_file (db : ManifestDB) (r : FileRecord) : ManifestDB :=
  r :: db.filter (fun x => x.file_id != r.file_id)

/-- `ManifestDB.delete_file_record` (database.py:465-477): DELETE by id. -/
def delete_file_record (db : ManifestDB) (file_id : String) : ManifestDB :=
  db.filter (fun r => r.file_id != file_id)

/-- `ManifestDB.update_file` (database.py:165-189) as called from
`retry_pending_uploads` with status and nextcloud_path kwargs. -/
def update_status_and_path (db : ManifestDB) (file_id : String)
    (st : Status) (nc : Option String) : ManifestDB :=
  db.map (fun r => if r.file_id = file_id then { r with status := st, nextcloud_path := nc } else r)

/-- `ManifestDB.mark_upload_failed` (database.py:205-207). -/
def mark_upload_failed (db : ManifestDB) (file_id : String) : ManifestDB :=
  db.map (fun r => if r.file_id = file_id then { r with status := Status.upload_failed } else r)

/-- The WHERE clause of `get_files_needing_upload` (database.py:255):
status IN ('upload_pending', 'upload_failed'). -/
def needs_upload (r : FileRecord) : Bool :=
  decide (r.status = Status.upload_pending ∨ r.status = Status.upload_failed)

/-- `ManifestDB.get_files_needing_upload` (database.py:243-260). -/
def get_files_needing_upload (db : ManifestDB) : List FileRecord :=
  db.filter needs_upload

/-! ## Validation module (engine.py) -/

/-- `MIN_FILE_SIZE_BYTES` (engine.py:20). -/
def MIN_FILE_SIZE_BYTES : Nat := 10 * 1024

/-- Result of `_validate_file_data`: ok, or which ValueError was raised. -/
inductive ValidationOutcome where
  | ok
  | tooSmall
  | imageInvalid
  deriving DecidableEq, Repr

/-- Python str.startswith as a character-level prefix test. -/
def starts_with (pre s : String) : Bool := pre.data.isPrefixOf s.data

/-- `DownloadEngine._validate_file_data` (engine.py:292-321).  `imgVerify`
abstracts PIL `Image.open` + `verify` succeeding on the bytes. -/
def validate_file_data (imgVerify : List Nat → Bool)
    (file_data : List Nat) (mime_type : String) : ValidationOutcome :=
  if file_data.length < MIN_FILE_SIZE_BYTES then ValidationOutcome.tooSmall
  else if starts_with "image/" mime_type then
    if imgVerify file_data then ValidationOutcome.ok else ValidationOutcome.imageInvalid
  else ValidationOutcome.ok

/-! ## Crypto layer (decryption.py, hermine_client.py) -/

/-- PKCS#7 unpad as performed by `Crypto.Util.Padding.unpad`: the input must
be non-empty, a multiple of the block size, and end in n copies of the byte
n with 1 <= n <= block. -/
def unpad (block : Nat) (data : List Nat) : Except String (List Nat) :=
  if data.length = 0 then Except.error "Zero-length input cannot be unpadded"
  else if data.length % block ≠ 0 then Except.error "Input data is not padded"
  else
    match data.getLast? with
    | none => Except.error "Zero-length input cannot be unpadded"
    | some n =>
      if n = 0 ∨ block < n then Except.error "Padding is incorrect"
      else if (data.drop (data.length - n)).all (fun b => b = n) then
        Except.ok (data.take (data.length - n))
      else Except.error "Padding is incorrect"

/-- PyCryptodome `AES.new` accepts key lengths 16, 24 or 32 bytes only. -/
def aes_key_ok (key : List Nat) : Bool :=
  key.length = 16 || key.length = 24 || key.length = 32

/-- `HermineCrypto.decrypt_file` (decryption.py:60-84): construct the AES-CBC
cipher (which raises on a bad key or iv length), decrypt, unpad.  `cbc`
abstracts the raw CBC block decryption as a function of key, iv and data. -/
def decrypt_file (cbc : List Nat → List Nat → List Nat → List Nat)
    (encrypted_data file_key iv : List Nat) : Except String (List Nat) :=
  if ¬ aes_key_ok file_key then Except.error "Incorrect AES key length"
  else if iv.length ≠ 16 then Except.error "Incorrect IV length"
  else unpad 16 (cbc file_key iv encrypted_data)

/-- The encrypted branch of `HermineClient.download_file`
(hermine_client.py:543-567), after the chat key has been recovered: decrypt
the wrapped per-file key with AES-CBC under the chat key and `file_key_iv`,
strip block padding, then decrypt the content with the resulting key bytes
and `e2e_iv`.  The unpadded key is used as-is; no truncation is applied.
The same sequence appears in `_download_full_file_from_endpoint`
(hermine_client.py:455-468). -/
def unwrap_and_decrypt (cbc : List Nat → List Nat → List Nat → List Nat)
    (chat_key encrypted_file_key file_key_iv encrypted_data e2e_iv : List Nat) :
    Except String (List Nat) :=
  if ¬ aes_key_ok chat_key then Except.error "Incorrect AES key length"
  else if file_key_iv.length ≠ 16 then Except.error "Incorrect IV length"
  else
    match unpad 16 (cbc chat_key file_key_iv encrypted_file_key) with
    | Except.error e => Except.error e
    | Except.ok file_key_bytes => decrypt_file cbc encrypted_data file_key_bytes e2e_iv

/-! ## Download engine (engine.py) -/

/-- The configuration fields consulted by the engine (config.py), plus
whether a Nextcloud client was passed and is connected. -/
structure EngineConfig where
  retry_attempts : Nat
  auto_upload : Bool
  delete_local_after_upload : Bool
  calculate_checksums : Bool
  nextcloud_present : Bool
  nextcloud_connected : Bool

/-- The fields of `MediaFile` (api/models.py) consumed by the engine. -/
structure MediaFile where
  file_id : String
  channel_id : String
  message_id : String
  filename : String
  mime_type : String
  sender_name : String
  deriving DecidableEq, Repr

/-- Outcomes of the external calls made by one iteration of the retry loop
in `_download_file_safe`: the fetch+decrypt (`hermine.download_file`), the
local persist (write_bytes plus EXIF processing), and the Nextcloud upload
(`upload_file_with_verification`, returning the remote path). -/
structure AttemptWorld where
  fetch : Except String (List Nat)
  persist : Except String Unit
  upload : Except String String

/-- The per-file result of `_download_file_safe`: the stats dict it returns,
plus the manifest commit (`upsert_file`) and the error-log append
(`record_error`) it performed, if any. -/
structure FileOutcome where
  downloaded : Nat
  errors : Nat
  total_size : Nat
  committed : Option FileRecord
  error_logged : Option String
  deriving DecidableEq, Repr

/-- The Nextcloud upload branch of `_download_file_safe` (engine.py:230-252):
the resulting triple is (upload_status, nc_path, local file deleted after a
successful upload). -/
def upload_branch (cfg : EngineConfig) (w : AttemptWorld) : Status × Option String × Bool :=
  if cfg.nextcloud_present && cfg.auto_upload then
    if cfg.nextcloud_connected then
      match w.upload with
      | Except.ok nc_path => (Status.completed, some nc_path, cfg.delete_local_after_upload)
      | Except.error _ => (Status.upload_failed, none, false)
    else (Status.upload_pending, none, false)
  else (Status.completed, none, false)

/-- One iteration of the try-block of `_download_file_safe`
(engine.py:202-275): fetch, validate, persist locally, optionally upload to
Nextcloud, then build the record passed to `upsert_file`.  An `error`
result is an exception reaching the outer handler of the retry loop. -/
def download_attempt (cfg : EngineConfig) (imgVerify : List Nat → Bool)
    (hashHex : List Nat → String) (mf : MediaFile) (local_path : String)
    (w : AttemptWorld) : Except String (FileRecord × Nat) :=
  match w.fetch with
  | Except.error e => Except.error e
  | Except.ok file_data =>
    match validate_file_data imgVerify file_data mf.mime_type with
    | ValidationOutcome.tooSmall => Except.error "File too small"
    | ValidationOutcome.imageInvalid => Except.error "Image validation failed"
    | ValidationOutcome.ok =>
      match w.persist with
      | Except.error e => Except.error e
      | Except.ok _ =>
        let file_hash := if cfg.calculate_checksums then some (hashHex file_data) else none
        let file_size := file_data.length
        let branch := upload_branch cfg w
        -- stored_local_path (engine.py:255): None when the local copy was
        -- deleted after a successful upload
        let stored_local_path := if branch.2.2 then none else some local_path
        Except.ok
          ({ file_id := mf.file_id
             channel_id := mf.channel_id
             message_id := mf.message_id
             filename := mf.filename
             file_hash := file_hash
             file_size := file_size
             mime_type := mf.mime_type
             sender := mf.sender_name
             local_path := stored_local_path
             nextcloud_path := branch.2.1
             status := branch.1 }, file_size)

/-- The retry while-loop of `_download_file_safe` (engine.py:200-290).
`attempts` supplies the external-call outcomes of successive iterations,
`i` is the current attempt index, `remaining` the attempt budget left
(`retry_attempts - retry_count`).  On failure with budget left the loop
sleeps and retries; on the last failure it calls `record_error` and counts
one error; a zero budget falls through to the trailing error result. -/
def download_loop (cfg : EngineConfig) (imgVerify : List Nat → Bool)
    (hashHex : List Nat → String) (mf : MediaFile) (local_path : String)
    (attempts : Nat → AttemptWorld) : Nat → Nat → FileOutcome
  | _, 0 => { downloaded := 0, errors := 1, total_size := 0, committed := none, error_logged := none }
  | i, remaining + 1 =>
    match download_attempt cfg imgVerify hashHex mf local_path (attempts i) with
    | Except.ok (rec, size) =>
      { downloaded := 1, errors := 0, total_size := size, committed := some rec, error_logged := none }
    | Except.error e =>
      if remaining = 0 then
        { downloaded := 0, errors := 1, total_size := 0, committed := none, error_logged := some e }
      else
        download_loop cfg imgVerify hashHex mf local_path attempts (i + 1) remaining

/-- `DownloadEngine._download_file_safe` (engine.py:195-290). -/
def download_file_safe (cfg : EngineConfig) (imgVerify : List Nat → Bool)
    (hashHex : List Nat → String) (mf : MediaFile) (local_path : String)
    (attempts : Nat → AttemptWorld) : FileOutcome :=
  download_loop cfg imgVerify hashHex mf local_path attempts 0 cfg.retry_attempts

/-- The stats dict built by `process_channel`. -/
structure ChannelStats where
  downloaded : Nat
  skipped : Nat
  errors : Nat
  total_size : Nat
  deriving DecidableEq, Repr

/-- Result of one `process_channel` run: its stats, the manifest after all
per-file commits, and the error-log entries appended (file_id, message). -/
structure ChannelResult where
  stats : ChannelStats
  db : ManifestDB
  error_log : List (String × String)
  deriving DecidableEq, Repr

/-- `DownloadEngine.process_channel` (engine.py:148-193): split the listing
into already-completed files (skipped) and new files via `file_exists`,
run `_download_file_safe` for each new file, and accumulate stats, manifest
commits and error-log appends.  The per-file pipelines are independent
tasks gathered at channel granularity; they are folded sequentially here,
each touching only its own `file_id`. -/
def process_channel (cfg : EngineConfig) (imgVerify : List Nat → Bool)
    (hashHex : List Nat → String) (localPathFor : MediaFile → String)
    (attemptsFor : MediaFile → Nat → AttemptWorld)
    (db : ManifestDB) (media_files : List MediaFile) : ChannelResult :=
  let skipped := (media_files.filter (fun mf => file_exists db mf.file_id)).length
  let new_files := media_files.filter (fun mf => !(file_exists db mf.file_id))
  new_files.foldl
    (fun acc mf =>
      let o := download_file_safe cfg imgVerify hashHex mf (localPathFor mf) (attemptsFor mf)
      { stats :=
          { acc.stats with
            downloaded := acc.stats.downloaded + o.downloaded
            errors := acc.stats.errors + o.errors
            total_size := acc.stats.total_size + o.total_size }
        db := match o.committed with
          | some r => upsert_file acc.db r
          | none => acc.db
        error_log := match o.error_logged with
          | some m => acc.error_log ++ [(mf.file_id, m)]
          | none => acc.error_log })
    { stats := { downloaded := 0, skipped := skipped, errors := 0, total_size := 0 }
      db := db
      error_log := [] }

/-! ## Remediation: retry_pending_uploads (engine.py:40-110) -/

/-- External collaborators of `retry_pending_uploads`: whether a Nextcloud
client is present and connected, the filesystem check on `local_path`, and
the upload retry (`upload_file_with_verification` on the rebuilt remote
path), which returns the remote path or raises. -/
structure RemediationCtx where
  nextcloud_present : Bool
  nextcloud_connected : Bool
  local_file_exists : String → Bool
  upload_retry : FileRecord → Except String String

/-- The body of the per-record loop of `retry_pending_uploads`
(engine.py:61-104): delete the record when `local_path` is NULL or the
local file is missing, otherwise retry the upload and either update the
record to completed with the returned remote path, or mark it
upload_failed.  The accumulator is (success_count, manifest). -/
def pending_step (ctx : RemediationCtx) (acc : Nat × ManifestDB) (fi : FileRecord) :
    Nat × ManifestDB :=
  match fi.local_path with
  | none => (acc.1, delete_file_record acc.2 fi.file_id)
  | some lp =>
    if ctx.local_file_exists lp then
      match ctx.upload_retry fi with
      | Except.ok nc_path =>
        (acc.1 + 1, update_status_and_path acc.2 fi.file_id Status.completed (some nc_path))
      | Except.error _ => (acc.1, mark_upload_failed acc.2 fi.file_id)
    else (acc.1, delete_file_record acc.2 fi.file_id)

/-- `DownloadEngine.retry_pending_uploads` (engine.py:40-110): bail out
when no connected Nextcloud client is available, otherwise run
`pending_step` over `get_files_needing_upload`; returns the success count
and the resulting manifest. -/
def retry_pending_uploads (ctx : RemediationCtx) (db : ManifestDB) : Nat × ManifestDB :=
  if ¬ (ctx.nextcloud_present && ctx.nextcloud_connected) then (0, db)
  else (get_files_needing_upload db).foldl (pending_step ctx) (0, db)

/-- The per-record fate under one `retry_pending_uploads` pass, used to
state what the scan does: records outside the pending/failed statuses are
untouched; a scanned record is deleted when its local file is absent, and
otherwise transitions on the upload outcome. -/
def pending_transition (ctx : RemediationCtx) (r : FileRecord) : Option FileRecord :=
  if needs_upload r then
    match r.local_path with
    | none => none
    | some lp =>
      if ctx.local_file_exists lp then
        match ctx.upload_retry r with
        | Except.ok nc_path => some { r with status := Status.completed, nextcloud_path := some nc_path }
        | Except.error _ => some { r with status := Status.upload_failed }
      else none
  else some r

/-! ## Theorems -/

/-- C5: the manifest existence check `file_exists` returns true exactly when
the store holds a record for the file_id with status completed; any other
status, or no record at all, yields false. -/
theorem C5_file_exists_iff_completed (db : ManifestDB) (fid : String) :
    file_exists db fid = true ↔ ∃ r ∈ db, r.file_id = fid ∧ r.status = Status.completed := by
  simp [file_exists, file_exists_catch, query_completed, List.find?_isSome]

/-- C10: when the SQLite query inside `file_exists` raises a database error,
the method returns false rather than propagating: the dedup gate fails open,
giving the same answer as when no record exists, so the file stays eligible
for (re-)fetch. -/
theorem C10_file_exists_fails_open (e : SqliteError) :
    file_exists_catch (Except.error e) = false ∧
    file_exists_catch (Except.error e) = file_exists_catch (Except.ok none) :=
  ⟨rfl, rfl⟩

/-- C6: validation applies its rules in order with short-circuiting: any
payload below the fixed floor is rejected as too small regardless of
content; at or above the floor an image payload is accepted exactly when
the image verifier accepts the bytes, and a non-image payload is always
accepted. -/
theorem C6_validation_order (imgVerify : List Nat → Bool)
    (file_data : List Nat) (mime_type : String) :
    (file_data.length < MIN_FILE_SIZE_BYTES →
      validate_file_data imgVerify file_data mime_type = ValidationOutcome.tooSmall) ∧
    (MIN_FILE_SIZE_BYTES ≤ file_data.length → starts_with "image/" mime_type = true →
      (validate_file_data imgVerify file_data mime_type = ValidationOutcome.ok ↔
        imgVerify file_data = true)) ∧
    (MIN_FILE_SIZE_BYTES ≤ file_data.length → starts_with "image/" mime_type = false →
      validate_file_data imgVerify file_data mime_type = ValidationOutcome.ok) := by
  refine ⟨fun h => ?_, fun h himg => ?_, fun h himg => ?_⟩
  · simp [validate_file_data, h]
  · have hlt : ¬ file_data.length < MIN_FILE_SIZE_BYTES := Nat.not_lt.mpr h
    cases hv : imgVerify file_data <;>
      simp [validate_file_data, hlt, himg, hv]
  · have hlt : ¬ file_data.length < MIN_FILE_SIZE_BYTES := Nat.not_lt.mpr h
    simp [validate_file_data, hlt, himg]

/-- Witness for C6 at a concrete input: a non-image payload exactly at the
floor is accepted even though the image verifier would reject it. -/
theorem C6_validation_order_witness :
    validate_file_data (fun _ => false) (List.replicate MIN_FILE_SIZE_BYTES 0) "application/pdf" =
      ValidationOutcome.ok :=
  (C6_validation_order (fun _ => false) (List.replicate MIN_FILE_SIZE_BYTES 0)
      "application/pdf").2.2 (by simp) (by decide)

/-- The identity CBC transform, used to exhibit concrete unwrap outcomes. -/
def idCbc : List Nat → List Nat → List Nat → List Nat := fun _ _ data => data

/-- A wrapped per-file key whose CBC decryption unpads to a 48-byte blob:
the over-length server encoding. -/
def overlongWrappedKey : List Nat := List.replicate 48 7 ++ List.replicate 16 16

/-- A wrapped per-file key whose CBC decryption unpads to a clean 32-byte
key. -/
def cleanWrappedKey : List Nat := List.replicate 32 9 ++ List.replicate 16 16

/-- C2 counterexample: at a concrete input whose unwrapped file key is a
48-byte blob (everything else well-formed), the unwrap step does not
truncate to 32 bytes: constructing the content cipher fails on the key
length and decryption of the file fails, contradicting the claim that an
over-length unwrapped key never by itself causes decryption to fail. -/
theorem C2_counterexample :
    unwrap_and_decrypt idCbc (List.replicate 32 1) overlongWrappedKey
      (List.replicate 16 0) (List.replicate 16 2) (List.replicate 16 0) =
      Except.error "Incorrect AES key length" := rfl

/-- C2 amended: the file-key unwrap uses the unpadded key bytes as-is with
no truncation: a clean 32-byte unwrapped key is accepted and decryption
proceeds to CBC content decryption under that key, while an unwrapped key
of invalid AES length (in particular any over-length blob) makes the file
decryption fail with a key-length error. -/
theorem C2_amended_no_truncation (cbc : List Nat → List Nat → List Nat → List Nat)
    (chat_key encrypted_file_key file_key_iv encrypted_data e2e_iv file_key_bytes : List Nat)
    (hck : aes_key_ok chat_key = true) (hfiv : file_key_iv.length = 16)
    (heiv : e2e_iv.length = 16)
    (hun : unpad 16 (cbc chat_key file_key_iv encrypted_file_key) = Except.ok file_key_bytes) :
    (file_key_bytes.length = 32 →
      unwrap_and_decrypt cbc chat_key encrypted_file_key file_key_iv encrypted_data e2e_iv =
        unpad 16 (cbc file_key_bytes e2e_iv encrypted_data)) ∧
    (aes_key_ok file_key_bytes = false →
      unwrap_and_decrypt cbc chat_key encrypted_file_key file_key_iv encrypted_data e2e_iv =
        Except.error "Incorrect AES key length") := by
  constructor
  · intro h32
    have hok : aes_key_ok file_key_bytes = true := by
      simp [aes_key_ok, h32]
    simp [unwrap_and_decrypt, hck, hfiv, hun, decrypt_file, hok, heiv]
  · intro hbad
    simp [unwrap_and_decrypt, hck, hfiv, hun, decrypt_file, hbad]

/-- Witness for C2 amended at a concrete input: a clean 32-byte unwrapped
key proceeds to content decryption. -/
theorem C2_amended_no_truncation_witness :
    unwrap_and_decrypt idCbc (List.replicate 32 1) cleanWrappedKey (List.replicate 16 0)
      (List.replicate 16 2) (List.replicate 16 0) =
      unpad 16 (idCbc (List.replicate 32 9) (List.replicate 16 0) (List.replicate 16 2)) :=
  (C2_amended_no_truncation idCbc (List.replicate 32 1) cleanWrappedKey
      (List.replicate 16 0) (List.replicate 16 2) (List.replicate 16 0) (List.replicate 32 9)
      (by decide) (by decide) (by decide) rfl).1 (by decide)

/-! ### Engine helper lemmas -/

/-- The local copy is only deleted before the commit when
delete_local_after_upload is set and the upload returned a remote path. -/
theorem upload_branch_deleted (cfg : EngineConfig) (w : AttemptWorld)
    (h : (upload_branch cfg w).2.2 = true) :
    cfg.delete_local_after_upload = true ∧ ∃ p, (upload_branch cfg w).2.1 = some p := by
  unfold upload_branch at h ⊢
  by_cases h1 : cfg.nextcloud_present && cfg.auto_upload
  · by_cases h2 : cfg.nextcloud_connected
    · cases hu : w.upload with
      | error e => simp [h1, h2, hu] at h
      | ok nc => simp [h1, h2, hu] at h ⊢; exact h
    · simp [h1, h2] at h
  · simp [h1] at h

/-- The record committed by a successful attempt carries the status, remote
path and stored local path produced by the upload branch. -/
theorem download_attempt_ok (cfg : EngineConfig) (imgVerify : List Nat → Bool)
    (hashHex : List Nat → String) (mf : MediaFile) (local_path : String)
    (w : AttemptWorld) (rec : FileRecord) (size : Nat)
    (h : download_attempt cfg imgVerify hashHex mf local_path w = Except.ok (rec, size)) :
    rec.status = (upload_branch cfg w).1 ∧
    rec.nextcloud_path = (upload_branch cfg w).2.1 ∧
    rec.local_path = (if (upload_branch cfg w).2.2 then none else some local_path) := by
  unfold download_attempt at h
  cases hf : w.fetch with
  | error e => simp only [hf] at h; exact absurd h (by simp)
  | ok file_data =>
    simp only [hf] at h
    cases hv : validate_file_data imgVerify file_data mf.mime_type <;> simp only [hv] at h
    case tooSmall => exact absurd h (by simp)
    case imageInvalid => exact absurd h (by simp)
    case ok =>
      cases hp : w.persist with
      | error e => simp only [hp] at h; exact absurd h (by simp)
      | ok u =>
        simp only [hp] at h
        simp only [Except.ok.injEq, Prod.mk.injEq] at h
        obtain ⟨hrec, hsize⟩ := h
        subst hrec
        exact ⟨rfl, rfl, rfl⟩

/-- A record present in the loop result was produced by some attempt. -/
theorem download_loop_committed (cfg : EngineConfig) (imgVerify : List Nat → Bool)
    (hashHex : List Nat → String) (mf : MediaFile) (local_path : String)
    (attempts : Nat → AttemptWorld) :
    ∀ remaining i rec,
      (download_loop cfg imgVerify hashHex mf local_path attempts i remaining).committed = some rec →
      ∃ j size, download_attempt cfg imgVerify hashHex mf local_path (attempts j) =
        Except.ok (rec, size) := by
  intro remaining
  induction remaining with
  | zero => intro i rec h; simp [download_loop] at h
  | succ n ih =>
    intro i rec h
    rw [download_loop] at h
    cases ha : download_attempt cfg imgVerify hashHex mf local_path (attempts i) with
    | ok pr =>
      obtain ⟨r0, s0⟩ := pr
      rw [ha] at h
      simp only at h
      obtain rfl : r0 = rec := Option.some.inj h
      exact ⟨i, s0, ha⟩
    | error e =>
      rw [ha] at h
      by_cases hn : n = 0
      · subst hn; simp at h
      · simp only [if_neg hn] at h
        exact ih (i + 1) rec h

/-- C1 amended: a commit with status completed stores either the local path
(always, when delete_local_after_upload is off) or, when
delete_local_after_upload is on and the upload succeeded, a NULL local_path
together with a non-null remote path. -/
theorem C1_completed_commit_paths (cfg : EngineConfig) (imgVerify : List Nat → Bool)
    (hashHex : List Nat → String) (mf : MediaFile) (local_path : String)
    (attempts : Nat → AttemptWorld) (rec : FileRecord)
    (h : (download_file_safe cfg imgVerify hashHex mf local_path attempts).committed = some rec)
    (hc : rec.status = Status.completed) :
    (rec.local_path = some local_path ∨
      (cfg.delete_local_after_upload = true ∧ ∃ p, rec.nextcloud_path = some p)) ∧
    (cfg.delete_local_after_upload = false → rec.local_path = some local_path) := by
  obtain ⟨j, size, ha⟩ :=
    download_loop_committed cfg imgVerify hashHex mf local_path attempts cfg.retry_attempts 0 rec h
  obtain ⟨hst, hnc, hlp⟩ := download_attempt_ok cfg imgVerify hashHex mf local_path
    (attempts j) rec size ha
  constructor
  · by_cases hdel : (upload_branch cfg (attempts j)).2.2 = true
    · obtain ⟨h1, p, h2⟩ := upload_branch_deleted cfg (attempts j) hdel
      exact Or.inr ⟨h1, p, by rw [hnc, h2]⟩
    · left
      rw [hlp, if_neg hdel]
  · intro hdel
    by_cases hb : (upload_branch cfg (attempts j)).2.2 = true
    · obtain ⟨h1, _⟩ := upload_branch_deleted cfg (attempts j) hb
      rw [hdel] at h1
      exact absurd h1 (by simp)
    · rw [hlp, if_neg hb]

/-- Listing metadata shared by the concrete engine scenarios. -/
def exMf : MediaFile :=
  { file_id := "f1", channel_id := "c1", message_id := "m1", filename := "a.pdf",
    mime_type := "application/pdf", sender_name := "alice" }

/-- A payload exactly at the validation floor, non-image. -/
def exData : List Nat := List.replicate MIN_FILE_SIZE_BYTES 0

/-- Engine configuration with auto-upload and delete-local-after-upload. -/
def exCfgDeleteLocal : EngineConfig :=
  { retry_attempts := 3, auto_upload := true, delete_local_after_upload := true,
    calculate_checksums := false, nextcloud_present := true, nextcloud_connected := true }

/-- Engine configuration with auto-upload but keeping the local copy. -/
def exCfgAuto : EngineConfig :=
  { retry_attempts := 3, auto_upload := true, delete_local_after_upload := false,
    calculate_checksums := false, nextcloud_present := true, nextcloud_connected := true }

/-- An attempt whose fetch, persist and upload all succeed. -/
def exWorldUploadOk : AttemptWorld :=
  { fetch := Except.ok exData, persist := Except.ok (), upload := Except.ok "Fotos/2026/a.pdf" }

/-- An attempt where only the Nextcloud upload raises. -/
def exWorldUploadFail : AttemptWorld :=
  { fetch := Except.ok exData, persist := Except.ok (), upload := Except.error "connection reset" }

/-- An attempt whose fetch raises. -/
def exWorldFetchFail : AttemptWorld :=
  { fetch := Except.error "network timeout", persist := Except.ok (), upload := Except.ok "p" }

/-- The floor-sized non-image payload passes validation. -/
theorem exData_validate (imgVerify : List Nat → Bool) :
    validate_file_data imgVerify exData "application/pdf" = ValidationOutcome.ok := by
  have h1 : starts_with "image/" "application/pdf" = false := by decide
  simp [validate_file_data, exData, h1]

/-- When the very first attempt succeeds, `_download_file_safe` returns the
success outcome of that attempt. -/
theorem download_file_safe_first_ok (cfg : EngineConfig) (imgVerify : List Nat → Bool)
    (hashHex : List Nat → String) (mf : MediaFile) (local_path : String)
    (attempts : Nat → AttemptWorld) (rec : FileRecord) (size : Nat)
    (hra : 1 ≤ cfg.retry_attempts)
    (h : download_attempt cfg imgVerify hashHex mf local_path (attempts 0) = Except.ok (rec, size)) :
    download_file_safe cfg imgVerify hashHex mf local_path attempts =
      { downloaded := 1, errors := 0, total_size := size, committed := some rec,
        error_logged := none } := by
  obtain ⟨r, hr⟩ : ∃ r, cfg.retry_attempts = r + 1 := ⟨cfg.retry_attempts - 1, by omega⟩
  unfold download_file_safe
  rw [hr, download_loop, h]

/-- Evaluation of one attempt under exCfgDeleteLocal with a successful
upload: status completed, NULL local_path. -/
theorem exAttempt_deleteLocal_eval :
    download_attempt exCfgDeleteLocal (fun _ => true) (fun _ => "h") exMf "/media/a.pdf"
        exWorldUploadOk =
      Except.ok
        ({ file_id := "f1", channel_id := "c1", message_id := "m1", filename := "a.pdf",
           file_hash := none, file_size := MIN_FILE_SIZE_BYTES, mime_type := "application/pdf",
           sender := "alice", local_path := none, nextcloud_path := some "Fotos/2026/a.pdf",
           status := Status.completed }, MIN_FILE_SIZE_BYTES) := by
  have hval := exData_validate (fun _ => true)
  have hlen : exData.length = MIN_FILE_SIZE_BYTES := by simp [exData]
  simp [download_attempt, exWorldUploadOk, hval, upload_branch, exCfgDeleteLocal, exMf, hlen]

/-- Evaluation of one attempt under exCfgAuto with a successful upload:
status completed, local path kept. -/
theorem exAttempt_auto_eval :
    download_attempt exCfgAuto (fun _ => true) (fun _ => "h") exMf "/media/a.pdf"
        exWorldUploadOk =
      Except.ok
        ({ file_id := "f1", channel_id := "c1", message_id := "m1", filename := "a.pdf",
           file_hash := none, file_size := MIN_FILE_SIZE_BYTES, mime_type := "application/pdf",
           sender := "alice", local_path := some "/media/a.pdf",
           nextcloud_path := some "Fotos/2026/a.pdf",
           status := Status.completed }, MIN_FILE_SIZE_BYTES) := by
  have hval := exData_validate (fun _ => true)
  have hlen : exData.length = MIN_FILE_SIZE_BYTES := by simp [exData]
  simp [download_attempt, exWorldUploadOk, hval, upload_branch, exCfgAuto, exMf, hlen]

/-- Evaluation of one attempt under exCfgAuto when the upload raises:
status upload_failed, local path kept, no error. -/
theorem exAttempt_uploadFail_eval :
    download_attempt exCfgAuto (fun _ => true) (fun _ => "h") exMf "/media/a.pdf"
        exWorldUploadFail =
      Except.ok
        ({ file_id := "f1", channel_id := "c1", message_id := "m1", filename := "a.pdf",
           file_hash := none, file_size := MIN_FILE_SIZE_BYTES, mime_type := "application/pdf",
           sender := "alice", local_path := some "/media/a.pdf", nextcloud_path := none,
           status := Status.upload_failed }, MIN_FILE_SIZE_BYTES) := by
  have hval := exData_validate (fun _ => true)
  have hlen : exData.length = MIN_FILE_SIZE_BYTES := by simp [exData]
  simp [download_attempt, exWorldUploadFail, hval, upload_branch, exCfgAuto, exMf, hlen]

/-- C1 counterexample: with auto-upload and delete_local_after_upload
enabled and the upload succeeding, the commit that first sets status
completed stores a NULL local_path, contradicting the claim that such a
commit always stores a non-null local path. -/
theorem C1_counterexample :
    (download_file_safe exCfgDeleteLocal (fun _ => true) (fun _ => "h") exMf "/media/a.pdf"
        (fun _ => exWorldUploadOk)).committed =
      some { file_id := "f1", channel_id := "c1", message_id := "m1", filename := "a.pdf",
             file_hash := none, file_size := MIN_FILE_SIZE_BYTES, mime_type := "application/pdf",
             sender := "alice", local_path := none, nextcloud_path := some "Fotos/2026/a.pdf",
             status := Status.completed } := by
  rw [download_file_safe_first_ok exCfgDeleteLocal (fun _ => true) (fun _ => "h") exMf
    "/media/a.pdf" (fun _ => exWorldUploadOk) _ _ (by decide) exAttempt_deleteLocal_eval]

/-- Witness for C1 amended at a concrete input: with
delete_local_after_upload off, the completed commit stores the local path. -/
theorem C1_completed_commit_paths_witness :
    ((some "/media/a.pdf" : Option String) = some "/media/a.pdf" ∨
      (exCfgAuto.delete_local_after_upload = true ∧
        ∃ p, (some "Fotos/2026/a.pdf" : Option String) = some p)) ∧
    (exCfgAuto.delete_local_after_upload = false →
      (some "/media/a.pdf" : Option String) = some "/media/a.pdf") := by
  have hsafe := download_file_safe_first_ok exCfgAuto (fun _ => true) (fun _ => "h") exMf
    "/media/a.pdf" (fun _ => exWorldUploadOk) _ _ (by decide) exAttempt_auto_eval
  have h := C1_completed_commit_paths exCfgAuto (fun _ => true) (fun _ => "h") exMf
    "/media/a.pdf" (fun _ => exWorldUploadOk)
    { file_id := "f1", channel_id := "c1", message_id := "m1", filename := "a.pdf",
      file_hash := none, file_size := MIN_FILE_SIZE_BYTES, mime_type := "application/pdf",
      sender := "alice", local_path := some "/media/a.pdf",
      nextcloud_path := some "Fotos/2026/a.pdf", status := Status.completed }
    (by rw [hsafe]) rfl
  exact h

/-- C3 amended: when fetch, validation and local persistence succeed but the
optional remote-store upload step fails, the file is never aborted and never
counted as an error: it is reported as downloaded and its record committed —
with status upload_failed when the connected upload call raised, and
upload_pending when the remote store was not connected. -/
theorem C3_upload_failure_never_aborts (cfg : EngineConfig) (imgVerify : List Nat → Bool)
    (hashHex : List Nat → String) (mf : MediaFile) (local_path : String)
    (attempts : Nat → AttemptWorld) (file_data : List Nat)
    (hra : 1 ≤ cfg.retry_attempts)
    (hnp : cfg.nextcloud_present = true) (hau : cfg.auto_upload = true)
    (hf : (attempts 0).fetch = Except.ok file_data)
    (hv : validate_file_data imgVerify file_data mf.mime_type = ValidationOutcome.ok)
    (hp : (attempts 0).persist = Except.ok ())
    (hu : cfg.nextcloud_connected = true → ∃ e, (attempts 0).upload = Except.error e) :
    download_file_safe cfg imgVerify hashHex mf local_path attempts =
      { downloaded := 1, errors := 0, total_size := file_data.length,
        committed := some
          { file_id := mf.file_id, channel_id := mf.channel_id, message_id := mf.message_id,
            filename := mf.filename,
            file_hash := if cfg.calculate_checksums then some (hashHex file_data) else none,
            file_size := file_data.length, mime_type := mf.mime_type, sender := mf.sender_name,
            local_path := some local_path, nextcloud_path := none,
            status := if cfg.nextcloud_connected then Status.upload_failed
              else Status.upload_pending },
        error_logged := none } := by
  have hb : upload_branch cfg (attempts 0) =
      ((if cfg.nextcloud_connected then Status.upload_failed else Status.upload_pending),
        none, false) := by
    cases hc : cfg.nextcloud_connected with
    | true =>
      obtain ⟨e, he⟩ := hu hc
      simp [upload_branch, hnp, hau, hc, he]
    | false => simp [upload_branch, hnp, hau, hc]
  have hatt : download_attempt cfg imgVerify hashHex mf local_path (attempts 0) =
      Except.ok
        ({ file_id := mf.file_id, channel_id := mf.channel_id, message_id := mf.message_id,
           filename := mf.filename,
           file_hash := if cfg.calculate_checksums then some (hashHex file_data) else none,
           file_size := file_data.length, mime_type := mf.mime_type, sender := mf.sender_name,
           local_path := some local_path, nextcloud_path := none,
           status := if cfg.nextcloud_connected then Status.upload_failed
             else Status.upload_pending }, file_data.length) := by
    simp [download_attempt, hf, hv, hp, hb]
  exact download_file_safe_first_ok cfg imgVerify hashHex mf local_path attempts _ _ hra hatt

/-- C3 counterexample: at a concrete input where the connected upload call
raises, the committed status is upload_failed, not the upload_pending the
claim states; the file still counts as downloaded with zero errors. -/
theorem C3_counterexample :
    ((download_file_safe exCfgAuto (fun _ => true) (fun _ => "h") exMf "/media/a.pdf"
        (fun _ => exWorldUploadFail)).committed.map FileRecord.status =
      some Status.upload_failed) ∧
    (download_file_safe exCfgAuto (fun _ => true) (fun _ => "h") exMf "/media/a.pdf"
        (fun _ => exWorldUploadFail)).errors = 0 ∧
    Status.upload_failed ≠ Status.upload_pending := by
  rw [download_file_safe_first_ok exCfgAuto (fun _ => true) (fun _ => "h") exMf
    "/media/a.pdf" (fun _ => exWorldUploadFail) _ _ (by decide) exAttempt_uploadFail_eval]
  refine ⟨rfl, rfl, by decide⟩

/-- Witness for C3 amended at a concrete input. -/
theorem C3_upload_failure_never_aborts_witness :
    download_file_safe exCfgAuto (fun _ => true) (fun _ => "h") exMf "/media/a.pdf"
        (fun _ => exWorldUploadFail) =
      { downloaded := 1, errors := 0, total_size := exData.length,
        committed := some
          { file_id := exMf.file_id, channel_id := exMf.channel_id,
            message_id := exMf.message_id, filename := exMf.filename,
            file_hash := if exCfgAuto.calculate_checksums then some "h" else none,
            file_size := exData.length, mime_type := exMf.mime_type,
            sender := exMf.sender_name, local_path := some "/media/a.pdf",
            nextcloud_path := none,
            status := if exCfgAuto.nextcloud_connected then Status.upload_failed
              else Status.upload_pending },
        error_logged := none } :=
  C3_upload_failure_never_aborts exCfgAuto (fun _ => true) (fun _ => "h") exMf "/media/a.pdf"
    (fun _ => exWorldUploadFail) exData (by decide) rfl rfl rfl
    (exData_validate (fun _ => true)) rfl (fun _ => ⟨"connection reset", rfl⟩)

/-- When every attempt of the budget fails, the loop counts one error, logs
it, and commits nothing. -/
theorem download_loop_all_fail (cfg : EngineConfig) (imgVerify : List Nat → Bool)
    (hashHex : List Nat → String) (mf : MediaFile) (local_path : String)
    (attempts : Nat → AttemptWorld) :
    ∀ n i,
      (∀ j, j < n + 1 →
        ∃ e, download_attempt cfg imgVerify hashHex mf local_path (attempts (i + j)) =
          Except.error e) →
      ∃ m, download_loop cfg imgVerify hashHex mf local_path attempts i (n + 1) =
        { downloaded := 0, errors := 1, total_size := 0, committed := none,
          error_logged := some m } := by
  intro n
  induction n with
  | zero =>
    intro i h
    obtain ⟨e, he⟩ := h 0 (by omega)
    rw [Nat.add_zero] at he
    exact ⟨e, by simp [download_loop, he]⟩
  | succ k ih =>
    intro i h
    obtain ⟨e, he⟩ := h 0 (by omega)
    rw [Nat.add_zero] at he
    obtain ⟨m, hm⟩ := ih (i + 1) (fun j hj => by
      have hx := h (j + 1) (by omega)
      rwa [show i + (j + 1) = i + 1 + j by omega] at hx)
    refine ⟨m, ?_⟩
    rw [download_loop]
    simp only [he]
    rw [if_neg (Nat.succ_ne_zero k)]
    exact hm

/-- C4: when the per-file pipeline fails on every configured attempt, an
error-log entry is appended, the file counts as exactly one error, and no
manifest record is committed — so `file_exists` stays false and the file
remains eligible for retry on the next run, not marked corrupted. -/
theorem C4_retry_exhaustion_no_commit (cfg : EngineConfig) (imgVerify : List Nat → Bool)
    (hashHex : List Nat → String) (mf : MediaFile) (local_path : String)
    (attempts : Nat → AttemptWorld)
    (hra : 1 ≤ cfg.retry_attempts)
    (herr : ∀ j, j < cfg.retry_attempts →
      ∃ e, download_attempt cfg imgVerify hashHex mf local_path (attempts j) =
        Except.error e) :
    ∃ m, download_file_safe cfg imgVerify hashHex mf local_path attempts =
      { downloaded := 0, errors := 1, total_size := 0, committed := none,
        error_logged := some m } := by
  obtain ⟨n, hn⟩ : ∃ n, cfg.retry_attempts = n + 1 := ⟨cfg.retry_attempts - 1, by omega⟩
  unfold download_file_safe
  rw [hn]
  exact download_loop_all_fail cfg imgVerify hashHex mf local_path attempts n 0
    (fun j hj => by simpa using herr j (by omega))

/-- Witness for C4 at a concrete input: three failing fetches exhaust the
budget of three attempts. -/
theorem C4_retry_exhaustion_no_commit_witness :
    ∃ m, download_file_safe exCfgAuto (fun _ => true) (fun _ => "h") exMf "/media/a.pdf"
        (fun _ => exWorldFetchFail) =
      { downloaded := 0, errors := 1, total_size := 0, committed := none,
        error_logged := some m } :=
  C4_retry_exhaustion_no_commit exCfgAuto (fun _ => true) (fun _ => "h") exMf "/media/a.pdf"
    (fun _ => exWorldFetchFail) (by decide) (fun j _ => ⟨"network timeout", rfl⟩)

/-- C7: a synchronize run over a channel whose listed files are all already
recorded as completed performs no download, writes nothing to the manifest,
appends no error-log entry, and reports every file as skipped. -/
theorem C7_idempotent_second_run (cfg : EngineConfig) (imgVerify : List Nat → Bool)
    (hashHex : List Nat → String) (localPathFor : MediaFile → String)
    (attemptsFor : MediaFile → Nat → AttemptWorld)
    (db : ManifestDB) (media_files : List MediaFile)
    (h : ∀ mf ∈ media_files, file_exists db mf.file_id = true) :
    process_channel cfg imgVerify hashHex localPathFor attemptsFor db media_files =
      { stats := { downloaded := 0, skipped := media_files.length, errors := 0, total_size := 0 },
        db := db, error_log := [] } := by
  have h1 : media_files.filter (fun mf => file_exists db mf.file_id) = media_files :=
    List.filter_eq_self.mpr h
  have h2 : media_files.filter (fun mf => !(file_exists db mf.file_id)) = [] := by
    rw [List.filter_eq_nil_iff]
    intro mf hmf
    simp [h mf hmf]
  unfold process_channel
  rw [h1, h2]
  rfl

/-- A store holding one completed record. -/
def exDb : ManifestDB :=
  [{ file_id := "f1", channel_id := "c1", message_id := "m1", filename := "a.pdf",
     file_hash := none, file_size := 20000, mime_type := "application/pdf",
     sender := "alice", local_path := some "/media/a.pdf", nextcloud_path := none,
     status := Status.completed }]

/-- Witness for C7 at a concrete input: one listed file, already completed. -/
theorem C7_idempotent_second_run_witness :
    process_channel exCfgAuto (fun _ => true) (fun _ => "h") (fun _ => "/media/a.pdf")
        (fun _ _ => exWorldUploadOk) exDb [exMf] =
      { stats := { downloaded := 0, skipped := 1, errors := 0, total_size := 0 },
        db := exDb, error_log := [] } := by
  have h := C7_idempotent_second_run exCfgAuto (fun _ => true) (fun _ => "h")
    (fun _ => "/media/a.pdf") (fun _ _ => exWorldUploadOk) exDb [exMf]
    (by intro mf hmf; simp at hmf; subst hmf; decide)
  simpa using h

/-! ### Remediation lemmas -/

/-- The manifest component of one `pending_step`. -/
def pending_db_step (ctx : RemediationCtx) (d : ManifestDB) (fi : FileRecord) : ManifestDB :=
  match fi.local_path with
  | none => delete_file_record d fi.file_id
  | some lp =>
    if ctx.local_file_exists lp then
      match ctx.upload_retry fi with
      | Except.ok nc_path => update_status_and_path d fi.file_id Status.completed (some nc_path)
      | Except.error _ => mark_upload_failed d fi.file_id
    else delete_file_record d fi.file_id

/-- `pending_step` changes the manifest exactly as `pending_db_step`. -/
theorem pending_step_snd (ctx : RemediationCtx) (acc : Nat × ManifestDB) (fi : FileRecord) :
    (pending_step ctx acc fi).2 = pending_db_step ctx acc.2 fi := by
  cases h : fi.local_path with
  | none => simp only [pending_step, pending_db_step, h]
  | some lp =>
    by_cases hex : ctx.local_file_exists lp
    · cases hu : ctx.upload_retry fi <;> simp [pending_step, pending_db_step, h, hex, hu]
    · simp [pending_step, pending_db_step, h, hex]

/-- The manifest component of the whole scan loop. -/
theorem foldl_pending_step_snd (ctx : RemediationCtx) :
    ∀ (ps : List FileRecord) (acc : Nat × ManifestDB),
      (ps.foldl (pending_step ctx) acc).2 = ps.foldl (pending_db_step ctx) acc.2
  | [], _ => rfl
  | fi :: ps, acc => by
    rw [List.foldl_cons, List.foldl_cons, foldl_pending_step_snd ctx ps, pending_step_snd]

/-- A step keyed to a different file_id leaves a foreign record in place. -/
theorem pending_db_step_cons (ctx : RemediationCtx) (r fi : FileRecord) (d : ManifestDB)
    (hid : r.file_id ≠ fi.file_id) :
    pending_db_step ctx (r :: d) fi = r :: pending_db_step ctx d fi := by
  have hbne : (r.file_id != fi.file_id) = true := by simp [bne_iff_ne, hid]
  cases h : fi.local_path with
  | none => simp [pending_db_step, h, delete_file_record, List.filter_cons, hbne]
  | some lp =>
    by_cases hex : ctx.local_file_exists lp
    · cases hu : ctx.upload_retry fi <;>
        simp [pending_db_step, h, hex, hu, update_status_and_path, mark_upload_failed,
          delete_file_record, List.filter_cons, hbne, hid]
    · simp [pending_db_step, h, hex, delete_file_record, List.filter_cons, hbne]

/-- The whole scan leaves a record in place when every scanned file_id
differs from it. -/
theorem foldl_pending_db_step_cons (ctx : RemediationCtx) :
    ∀ (ps : List FileRecord) (r : FileRecord) (d : ManifestDB),
      (∀ fi ∈ ps, r.file_id ≠ fi.file_id) →
      ps.foldl (pending_db_step ctx) (r :: d) = r :: ps.foldl (pending_db_step ctx) d
  | [], _, _, _ => rfl
  | fi :: ps, r, d, h => by
    rw [List.foldl_cons, pending_db_step_cons ctx r fi d (h fi (by simp)),
      List.foldl_cons, foldl_pending_db_step_cons ctx ps r _ (fun x hx => h x (by simp [hx]))]

/-- Deleting a file_id not present leaves the manifest unchanged. -/
theorem delete_not_mem (d : ManifestDB) (fid : String)
    (h : ∀ x ∈ d, x.file_id ≠ fid) : delete_file_record d fid = d :=
  List.filter_eq_self.mpr (fun x hx => by simp [bne_iff_ne]; exact h x hx)

/-- An update keyed by a file_id not present leaves the manifest unchanged. -/
theorem map_update_not_mem (f : FileRecord → FileRecord) (fid : String) :
    ∀ (d : ManifestDB), (∀ x ∈ d, x.file_id ≠ fid) →
      d.map (fun r => if r.file_id = fid then f r else r) = d
  | [], _ => rfl
  | x :: xs, h => by
    rw [List.map_cons, if_neg (h x (by simp)),
      map_update_not_mem f fid xs (fun y hy => h y (by simp [hy]))]

/-- Under unique file_ids, the scan loop of `retry_pending_uploads` maps the
manifest record-wise through `pending_transition`. -/
theorem retry_fold_characterization (ctx : RemediationCtx) :
    ∀ db : ManifestDB, (db.map FileRecord.file_id).Nodup →
      (get_files_needing_upload db).foldl (pending_db_step ctx) db =
        db.filterMap (pending_transition ctx)
  | [], _ => rfl
  | r :: rest, hnd => by
    have hnd2 : (r.file_id :: rest.map FileRecord.file_id).Nodup := by simpa using hnd
    have hmem := (List.nodup_cons.mp hnd2).1
    have hrest_nd := (List.nodup_cons.mp hnd2).2
    have hnotin : ∀ x ∈ rest, x.file_id ≠ r.file_id := fun x hx heq =>
      hmem (heq ▸ List.mem_map_of_mem FileRecord.file_id hx)
    have ih := retry_fold_characterization ctx rest hrest_nd
    have hdel : delete_file_record (r :: rest) r.file_id = rest := by
      simp only [delete_file_record, List.filter_cons, bne_self_eq_false, Bool.false_eq_true,
        if_false]
      exact delete_not_mem rest r.file_id hnotin
    have hskip : ∀ (x : FileRecord) (d : ManifestDB), x.file_id = r.file_id →
        (get_files_needing_upload rest).foldl (pending_db_step ctx) (x :: d) =
          x :: (get_files_needing_upload rest).foldl (pending_db_step ctx) d := by
      intro x d hx
      exact foldl_pending_db_step_cons ctx (get_files_needing_upload rest) x d
        (fun fi hfi heq => hnotin fi (List.mem_of_mem_filter hfi) (heq.symm.trans hx))
    by_cases hp : needs_upload r
    · have hg : get_files_needing_upload (r :: rest) = r :: get_files_needing_upload rest := by
        simp [get_files_needing_upload, List.filter_cons, hp]
      rw [hg, List.foldl_cons]
      cases hlp : r.local_path with
      | none =>
        have hstep : pending_db_step ctx (r :: rest) r = rest := by
          simp only [pending_db_step, hlp]
          exact hdel
        rw [hstep, ih, List.filterMap_cons]
        simp [pending_transition, hp, hlp]
      | some lp =>
        by_cases hex : ctx.local_file_exists lp
        · cases hu : ctx.upload_retry r with
          | ok nc =>
            have hstep : pending_db_step ctx (r :: rest) r =
                { r with status := Status.completed, nextcloud_path := some nc } :: rest := by
              simp only [pending_db_step, hlp, hex, hu, if_true, update_status_and_path,
                List.map_cons, if_pos]
              rw [map_update_not_mem _ r.file_id rest hnotin]
            rw [hstep,
              hskip { r with status := Status.completed, nextcloud_path := some nc } rest rfl,
              ih, List.filterMap_cons]
            simp [pending_transition, hp, hlp, hex, hu]
          | error e =>
            have hstep : pending_db_step ctx (r :: rest) r =
                { r with status := Status.upload_failed } :: rest := by
              simp only [pending_db_step, hlp, hex, hu, if_true, mark_upload_failed,
                List.map_cons, if_pos]
              rw [map_update_not_mem _ r.file_id rest hnotin]
            rw [hstep, hskip { r with status := Status.upload_failed } rest rfl,
              ih, List.filterMap_cons]
            simp [pending_transition, hp, hlp, hex, hu]
        · have hstep : pending_db_step ctx (r :: rest) r = rest := by
            simp only [pending_db_step, hlp, hex, if_false]
            exact hdel
          rw [hstep, ih, List.filterMap_cons]
          simp [pending_transition, hp, hlp, hex]
    · have hg : get_files_needing_upload (r :: rest) = get_files_needing_upload rest := by
        simp [get_files_needing_upload, List.filter_cons, hp]
      rw [hg, hskip r rest rfl, ih, List.filterMap_cons]
      simp [pending_transition, hp]

/-- C8: with a connected remote store and unique file_ids, one
`retry_pending_uploads` run rewrites the manifest record-wise: records
outside upload_pending/upload_failed are untouched; a scanned record whose
local_path is NULL or whose local file is missing is deleted (returning the
file_id to the implicit new state); otherwise the upload is retried — no
fetch or decryption is involved — and the record transitions to completed
with the returned non-null remote path on success, or to upload_failed on
failure. -/
theorem C8_requeue_pending_scan (ctx : RemediationCtx) (db : ManifestDB)
    (hnp : ctx.nextcloud_present = true) (hc : ctx.nextcloud_connected = true)
    (hnd : (db.map FileRecord.file_id).Nodup) :
    (retry_pending_uploads ctx db).2 = db.filterMap (pending_transition ctx) := by
  unfold retry_pending_uploads
  rw [if_neg (by simp [hnp, hc])]
  rw [foldl_pending_step_snd]
  exact retry_fold_characterization ctx db hnd

/-- Remediation collaborators for the concrete scan scenario: the local file
check recognises one path, the upload retry succeeds for one file_id. -/
def wCtx : RemediationCtx :=
  { nextcloud_present := true, nextcloud_connected := true,
    local_file_exists := fun p => p == "/media/ok.jpg",
    upload_retry := fun fi =>
      if fi.file_id == "p2" then Except.ok "Fotos/ok.jpg" else Except.error "store down" }

/-- A manifest with one completed record, one upload_pending record whose
local file is present, and one upload_failed record without a local path. -/
def wDb : ManifestDB :=
  [{ file_id := "d1", channel_id := "c1", message_id := "m1", filename := "a.jpg",
     file_hash := none, file_size := 20000, mime_type := "image/jpeg", sender := "alice",
     local_path := some "/media/ok.jpg", nextcloud_path := none, status := Status.completed },
   { file_id := "p2", channel_id := "c1", message_id := "m2", filename := "b.jpg",
     file_hash := none, file_size := 30000, mime_type := "image/jpeg", sender := "bob",
     local_path := some "/media/ok.jpg", nextcloud_path := none,
     status := Status.upload_pending },
   { file_id := "p3", channel_id := "c1", message_id := "m3", filename := "c.jpg",
     file_hash := none, file_size := 40000, mime_type := "image/jpeg", sender := "carol",
     local_path := none, nextcloud_path := none, status := Status.upload_failed }]

/-- Witness for C8 at a concrete input: the completed record is untouched,
the pending record with its local file present transitions to completed
with a remote path, and the failed record without a local path is deleted. -/
theorem C8_requeue_pending_scan_witness :
    (retry_pending_uploads wCtx wDb).2 = wDb.filterMap (pending_transition wCtx) :=
  C8_requeue_pending_scan wCtx wDb rfl rfl (by decide)

end HermineMediatool
